import Mathlib

/-!
Verification development for a small HTTP port-forward broker
(`src/app.py`).  The Python source is shallowly embedded: the
module-level dictionary `active_forwards` becomes an association list,
OS process liveness becomes an explicit `OS` state (`running : Nat →
Bool`, mirroring `process.poll() is None`), and the outcome of spawning
the external `kubectl` child is supplied as an explicit `LaunchWorld`
input (its pid, whether it survives the one-second observation window,
and the text on its stderr pipe).
-/

/-- A handle to a spawned child process (the `subprocess.Popen` object),
identified by its pid. -/
structure ProcessHandle where
  pid : Nat
  deriving DecidableEq, Repr

/-- Instantaneous state of the operating system's processes:
`running p = true` means `poll()` returns `None` for pid `p`. -/
structure OS where
  running : Nat → Bool

/-- The environment-dependent outcome of one `subprocess.Popen` launch of
the external forwarding executor. -/
structure LaunchWorld where
  pid : Nat
  survivesWindow : Bool
  stderrText : String
  deriving Repr

/-- Result of `start_port_forward`: the returned value (`Popen` or
`None`) together with the stderr text written to the log on failure. -/
structure LaunchOut where
  result : Option ProcessHandle
  loggedStderr : Option String
  deriving Repr

/-- Embedding of `start_port_forward` (src/app.py:38-70): spawn the
executor, sleep one second, and if the child has already exited
(`poll() is not None`) read its stderr, log it and return `None`;
otherwise return the process handle.  The namespace, pod and port
arguments only feed the command line, so they do not affect control
flow. -/
def start_port_forward (w : LaunchWorld) (ns pod_name : String)
    (pod_port local_port : Int) : LaunchOut :=
  if w.survivesWindow then
    { result := some ⟨w.pid⟩, loggedStderr := none }
  else
    { result := none, loggedStderr := some w.stderrText }

/-- One value of the `active_forwards` dictionary
(src/app.py:225-232).  The `process` field is an `Option` because the
dictionary could in principle store `None` (the `status` endpoint even
guards against it); claim C9 is about it never actually being `none`. -/
structure SessionInfo where
  process : Option ProcessHandle
  ns : String
  pod : String
  pod_port : Int
  local_port : Int
  started_at : Nat
  deriving DecidableEq, Repr

/-- The `active_forwards` dictionary, keyed by session id. -/
abbrev Registry := List (String × SessionInfo)

/-- Dictionary lookup (`active_forwards[session_id]` /
`session_id in active_forwards`). -/
def regLookup (sid : String) (reg : Registry) : Option SessionInfo :=
  (reg.find? (fun e => e.1 == sid)).map (·.2)

/-- Dictionary deletion (`del active_forwards[session_id]`). -/
def regRemove (sid : String) (reg : Registry) : Registry :=
  reg.filter (fun e => e.1 != sid)

/-- Dictionary insertion (`active_forwards[session_id] = {...}`). -/
def regInsert (sid : String) (info : SessionInfo) (reg : Registry) : Registry :=
  regRemove sid reg ++ [(sid, info)]

/-- Result of `stop_port_forward`: the updated dictionary, the updated
OS process state, and how many terminate/kill sequences were issued. -/
structure StopOut where
  registry : Registry
  os : OS
  terminations : Nat

/-- Embedding of `stop_port_forward` (src/app.py:73-85): under the lock,
if the session id is present, terminate its process when the process
object is truthy and still running (`poll() is None`), then delete the
entry; terminate-wait-kill leaves the process not running.  An unknown
session id is a no-op. -/
def stop_port_forward (session_id : String) (reg : Registry) (os : OS) : StopOut :=
  match regLookup session_id reg with
  | none => { registry := reg, os := os, terminations := 0 }
  | some info =>
    match info.process with
    | none => { registry := regRemove session_id reg, os := os, terminations := 0 }
    | some p =>
      if os.running p.pid then
        { registry := regRemove session_id reg
          os := ⟨fun q => if q = p.pid then false else os.running q⟩
          terminations := 1 }
      else
        { registry := regRemove session_id reg, os := os, terminations := 0 }

/-- Embedding of Python's `int()` applied to the `port` query parameter:
an optional sign followed by decimal digits parses; anything else raises
`ValueError`, modelled as `none`. -/
def decDigits? (cs : List Char) : Option Nat :=
  if cs.isEmpty then none
  else cs.foldl
    (fun acc c => match acc with
      | none => none
      | some n => if c.isDigit then some (n * 10 + (c.toNat - 48)) else none)
    (some 0)

/-- Parse a string the way `int()` does on plain decimal literals. -/
def pyInt? (s : String) : Option Int :=
  match s.toList with
  | '-' :: rest => (decDigits? rest).map (fun n => -(n : Int))
  | '+' :: rest => (decDigits? rest).map (fun n => (n : Int))
  | cs => (decDigits? cs).map (fun n => (n : Int))

/-- Python truthiness test on an optional query parameter:
`not namespace` is true when the parameter is absent or empty. -/
def pyFalsy : Option String → Bool
  | none => true
  | some s => s.isEmpty

/-- The local port computation of the `forward` endpoint
(src/app.py:206): `9000 + (hash(session_id) % 1000)`.  Python's `%` on a
positive modulus agrees with `Int.emod`. -/
def assignPort (h : Int) : Int := 9000 + h % 1000

/-- The query parameters of a request to the `forward` endpoint. -/
structure Request where
  namespace? : Option String
  pod? : Option String
  port? : Option String
  deriving Repr

/-- The response of the `forward` endpoint, one constructor per return
site of src/app.py:187-256. -/
inductive ForwardResp where
  | badRequest (msg : String)
  | launchError (msg : String) (local_port : Int)
  | success (session_id : String) (local_port : Int)
  | exception (msg : String)
  deriving DecidableEq, Repr

/-- HTTP status code attached to each `forward` return site. -/
def ForwardResp.statusCode : ForwardResp → Nat
  | .badRequest _ => 400
  | .launchError _ _ => 500
  | .success _ _ => 200
  | .exception _ => 500

/-- Per-request environment of `forward`: the generated uuid, Python's
`hash` of it, the launch outcome, and the current time. -/
structure ForwardEnv where
  sessionId : String
  sessionHash : Int
  world : LaunchWorld
  now : Nat
  deriving Repr

/-- Full observable outcome of one `forward` call: the HTTP response,
the dictionary afterwards, whether `subprocess.Popen` was invoked at
all, and what (if anything) was written to the error log. -/
structure ForwardOut where
  resp : ForwardResp
  registry : Registry
  launched : Bool
  loggedStderr : Option String

/-- Embedding of the `forward` endpoint (src/app.py:187-256).  The
source parses the `port` parameter with `int()` *before* validating
`namespace` and `pod`; a parse failure is caught by the outer
`try/except` and returned as a 500.  On launch failure it renders the
error template with the fixed message
"No se pudo iniciar el port-forward" and does not touch the dictionary;
on success it inserts the session and spawns the timeout thread. -/
def forward (env : ForwardEnv) (req : Request) (reg : Registry) : ForwardOut :=
  match pyInt? (req.port?.getD "8080") with
  | none =>
    { resp := .exception "invalid literal for int() with base 10"
      registry := reg, launched := false, loggedStderr := none }
  | some port =>
    if pyFalsy req.namespace? || pyFalsy req.pod? then
      { resp := .badRequest "Faltan parámetros: namespace y pod son requeridos"
        registry := reg, launched := false, loggedStderr := none }
    else
      match (start_port_forward env.world (req.namespace?.getD "")
          (req.pod?.getD "") port (assignPort env.sessionHash)).result with
      | none =>
        { resp := .launchError "No se pudo iniciar el port-forward"
            (assignPort env.sessionHash)
          registry := reg, launched := true
          loggedStderr := (start_port_forward env.world (req.namespace?.getD "")
            (req.pod?.getD "") port (assignPort env.sessionHash)).loggedStderr }
      | some p =>
        { resp := .success env.sessionId (assignPort env.sessionHash)
          registry := regInsert env.sessionId
            { process := some p, ns := req.namespace?.getD ""
              pod := req.pod?.getD "", pod_port := port
              local_port := assignPort env.sessionHash, started_at := env.now } reg
          launched := true
          loggedStderr := (start_port_forward env.world (req.namespace?.getD "")
            (req.pod?.getD "") port (assignPort env.sessionHash)).loggedStderr }

/-- Body of the per-session daemon thread (src/app.py:235-241): after
`FORWARD_TIMEOUT` seconds of sleep it invokes `stop_port_forward` once
for its session id. -/
def timeout_handler (session_id : String) (reg : Registry) (os : OS) : StopOut :=
  stop_port_forward session_id reg os

/-- Response of the `stop` endpoint. -/
structure StopResp where
  status : Nat
  body : String
  deriving DecidableEq, Repr

/-- Embedding of the `stop_forward` endpoint (src/app.py:259-267): call
`stop_port_forward` and unconditionally answer
`{"status": "stopped"}, 200`. -/
def stop_forward (session_id : String) (reg : Registry) (os : OS) :
    StopResp × Registry × OS :=
  let r := stop_port_forward session_id reg os
  (⟨200, "stopped"⟩, r.registry, r.os)

/-- One element of the `status` endpoint's answer (src/app.py:277-285). -/
structure StatusEntry where
  session_id : String
  ns : String
  pod : String
  pod_port : Int
  local_port : Int
  active : Bool
  started_at : Nat
  deriving DecidableEq, Repr

/-- The status entry built from one dictionary item: the `active` flag
is `process.poll() is None if process else False`, a fresh poll of the
OS at the time of the call (the dictionary stores no cached flag). -/
def statusEntryOf (os : OS) (e : String × SessionInfo) : StatusEntry :=
  { session_id := e.1, ns := e.2.ns, pod := e.2.pod
    pod_port := e.2.pod_port, local_port := e.2.local_port
    active := match e.2.process with
      | none => false
      | some p => os.running p.pid
    started_at := e.2.started_at }

/-- Embedding of the `status` endpoint (src/app.py:270-286): map every
dictionary item to its status entry under the current OS state. -/
def statusList (reg : Registry) (os : OS) : List StatusEntry :=
  reg.map (statusEntryOf os)

/-- Substring occurrence test used to state "the error carries the
diagnostic text". -/
def leadsWith : List Char → List Char → Bool
  | [], _ => true
  | _ :: _, [] => false
  | a :: as, b :: bs => a == b && leadsWith as bs

/-- `occursIn needle hay` holds when `needle` appears contiguously in
`hay`. -/
def occursIn (needle hay : String) : Bool :=
  (List.range (hay.toList.length + 1)).any
    (fun i => leadsWith needle.toList (hay.toList.drop i))

/-! ## Helper lemmas and sample states -/

/-- After deleting a session id, looking it up fails. -/
theorem regLookup_regRemove (sid : String) (reg : Registry) :
    regLookup sid (regRemove sid reg) = none := by
  unfold regLookup regRemove
  have hfind : List.find? (fun e => e.1 == sid)
      (List.filter (fun e => e.1 != sid) reg) = none := by
    rw [List.find?_eq_none]
    intro x hx
    have hne := (List.mem_filter.mp hx).2
    simpa using hne
  rw [hfind]
  rfl

/-- Every entry surviving a deletion has a different key. -/
theorem regRemove_key_ne (sid : String) (reg : Registry) :
    ∀ e ∈ regRemove sid reg, e.1 ≠ sid := by
  intro e he
  have hne := (List.mem_filter.mp he).2
  simpa using hne

/-- An OS state in which every process is running. -/
def osAllUp : OS := ⟨fun _ => true⟩

/-- An OS state in which every process has exited. -/
def osAllDown : OS := ⟨fun _ => false⟩

/-- A sample registry entry, as `forward` would create it. -/
def info1 : SessionInfo :=
  { process := some ⟨7⟩, ns := "demo", pod := "web-0"
    pod_port := 8080, local_port := 9000, started_at := 0 }

/-- A one-session sample registry. -/
def reg1 : Registry := [("s1", info1)]

/-! ## Claims -/

/-- C8: for every successful start call, the local port assigned to the
session lies within the fixed numeric pool range 9000-9999 inclusive. -/
theorem forward_local_port_in_pool (env : ForwardEnv) (req : Request)
    (reg : Registry) (sid : String) (lp : Int)
    (h : (forward env req reg).resp = .success sid lp) :
    9000 ≤ lp ∧ lp ≤ 9999 := by
  have h1 : 0 ≤ env.sessionHash % 1000 := Int.emod_nonneg _ (by decide)
  have h2 : env.sessionHash % 1000 < 1000 := Int.emod_lt_of_pos _ (by decide)
  unfold forward at h
  split at h
  · simp at h
  · split at h
    · simp at h
    · split at h
      · simp at h
      · simp only [ForwardResp.success.injEq] at h
        obtain ⟨-, hlp⟩ := h
        rw [← hlp]
        unfold assignPort
        omega

/-- C8 witness: a concrete successful start receives port 9000, which
lies in the pool. -/
theorem forward_local_port_in_pool_witness :
    (9000 : Int) ≤ 9000 ∧ (9000 : Int) ≤ 9999 :=
  forward_local_port_in_pool ⟨"sid-a", 0, ⟨1, true, ""⟩, 0⟩
    ⟨some "demo", some "web-0", none⟩ [] "sid-a" 9000 (by decide)

/-- C1: the claim that no two concurrently active sessions are ever
assigned the same local port fails on the code.  Two start calls whose
generated session ids hash to values congruent modulo 1000 (here 0 and
1000) both succeed and both sessions sit in the registry with local
port 9000: the port is derived from `hash(session_id)` with no
collision check against currently held ports. -/
theorem forward_assigns_colliding_ports :
    ((regLookup "sid-a" (forward ⟨"sid-b", 1000, ⟨2, true, ""⟩, 0⟩
        ⟨some "demo", some "web-0", none⟩
        (forward ⟨"sid-a", 0, ⟨1, true, ""⟩, 0⟩
          ⟨some "demo", some "web-0", none⟩ []).registry).registry).map
      (·.local_port) = some 9000) ∧
    ((regLookup "sid-b" (forward ⟨"sid-b", 1000, ⟨2, true, ""⟩, 0⟩
        ⟨some "demo", some "web-0", none⟩
        (forward ⟨"sid-a", 0, ⟨1, true, ""⟩, 0⟩
          ⟨some "demo", some "web-0", none⟩ []).registry).registry).map
      (·.local_port) = some 9000) ∧
    "sid-a" ≠ "sid-b" := by
  refine ⟨by decide, by decide, by decide⟩

/-- C2 counterexample: when the executor exits within the observation
window with diagnostic "pod not found" on stderr, `forward` returns the
fixed message "No se pudo iniciar el port-forward", which does not
contain the diagnostic; the diagnostic goes only to the log. -/
theorem forward_error_lacks_diagnostic :
    (forward ⟨"sid-c", 0, ⟨3, false, "pod not found"⟩, 0⟩
      ⟨some "demo", some "web-0", none⟩ []).resp
      = .launchError "No se pudo iniciar el port-forward" 9000 ∧
    occursIn "pod not found" "No se pudo iniciar el port-forward" = false ∧
    (forward ⟨"sid-c", 0, ⟨3, false, "pod not found"⟩, 0⟩
      ⟨some "demo", some "web-0", none⟩ []).loggedStderr
      = some "pod not found" := by
  refine ⟨by decide, by decide, by decide⟩

/-- C2 amended: when the executor exits during the observation window,
`forward` returns a launch-failure error (HTTP 500) with the fixed
generic message — the captured diagnostic is written to the log only,
not carried in the error — and the registry is unchanged. -/
theorem forward_launch_failure_generic_error (env : ForwardEnv)
    (req : Request) (reg : Registry) (port : Int)
    (hport : pyInt? (req.port?.getD "8080") = some port)
    (hns : pyFalsy req.namespace? = false) (hpod : pyFalsy req.pod? = false)
    (hdies : env.world.survivesWindow = false) :
    (forward env req reg).resp
      = .launchError "No se pudo iniciar el port-forward"
          (assignPort env.sessionHash) ∧
    (forward env req reg).loggedStderr = some env.world.stderrText ∧
    (forward env req reg).registry = reg := by
  unfold forward
  rw [hport]
  simp only [hns, hpod, Bool.or_self, Bool.false_eq_true, if_false,
    start_port_forward, hdies]
  refine ⟨?_, ?_, ?_⟩ <;> trivial

/-- C2 amended witness: the concrete "pod not found" scenario. -/
theorem forward_launch_failure_generic_error_witness :
    (forward ⟨"sid-c", 1, ⟨3, false, "pod not found"⟩, 0⟩
      ⟨some "demo", some "web-0", none⟩ []).resp
      = .launchError "No se pudo iniciar el port-forward" (assignPort 1) ∧
    (forward ⟨"sid-c", 1, ⟨3, false, "pod not found"⟩, 0⟩
      ⟨some "demo", some "web-0", none⟩ []).loggedStderr
      = some "pod not found" ∧
    (forward ⟨"sid-c", 1, ⟨3, false, "pod not found"⟩, 0⟩
      ⟨some "demo", some "web-0", none⟩ []).registry = [] :=
  forward_launch_failure_generic_error
    ⟨"sid-c", 1, ⟨3, false, "pod not found"⟩, 0⟩
    ⟨some "demo", some "web-0", none⟩ [] 8080 (by decide) rfl rfl rfl

/-- C3: start is all-or-nothing — when the launch fails after the local
port has been chosen, `forward` returns an error (HTTP 500), the
registry is unchanged, and hence the multiset of locally held ports
(the `local_port` fields of registry entries) is unchanged. -/
theorem forward_launch_failure_all_or_nothing (env : ForwardEnv)
    (req : Request) (reg : Registry) (port : Int)
    (hport : pyInt? (req.port?.getD "8080") = some port)
    (hns : pyFalsy req.namespace? = false) (hpod : pyFalsy req.pod? = false)
    (hdies : env.world.survivesWindow = false) :
    (forward env req reg).resp.statusCode = 500 ∧
    (forward env req reg).registry = reg ∧
    (forward env req reg).registry.map (fun e => e.2.local_port)
      = reg.map (fun e => e.2.local_port) := by
  unfold forward
  rw [hport]
  simp only [hns, hpod, Bool.or_self, Bool.false_eq_true, if_false,
    start_port_forward, hdies]
  refine ⟨?_, ?_, ?_⟩ <;> trivial

/-- C3 witness: the concrete failed-launch scenario leaves an empty
registry empty and answers 500. -/
theorem forward_launch_failure_all_or_nothing_witness :
    (forward ⟨"sid-e", 2, ⟨4, false, "boom"⟩, 0⟩
      ⟨some "demo", some "web-0", none⟩ []).resp.statusCode = 500 ∧
    (forward ⟨"sid-e", 2, ⟨4, false, "boom"⟩, 0⟩
      ⟨some "demo", some "web-0", none⟩ []).registry = [] ∧
    (forward ⟨"sid-e", 2, ⟨4, false, "boom"⟩, 0⟩
      ⟨some "demo", some "web-0", none⟩ []).registry.map
        (fun e => e.2.local_port)
      = ([] : Registry).map (fun e => e.2.local_port) :=
  forward_launch_failure_all_or_nothing
    ⟨"sid-e", 2, ⟨4, false, "boom"⟩, 0⟩
    ⟨some "demo", some "web-0", none⟩ [] 8080 (by decide) rfl rfl rfl

/-- Stopping a session id that is not in the dictionary changes
nothing and terminates nothing. -/
theorem stop_port_forward_not_found (sid : String) (reg : Registry)
    (os : OS) (h : regLookup sid reg = none) :
    stop_port_forward sid reg os = ⟨reg, os, 0⟩ := by
  unfold stop_port_forward
  rw [h]

/-- C9: every session record inserted into the active-sessions table has
a non-None process handle — `forward` only inserts after the launch
returned a real process, so the all-handles-present invariant of the
registry is preserved by every call. -/
theorem forward_registry_process_handles_present (env : ForwardEnv)
    (req : Request) (reg : Registry)
    (hinv : reg.all (fun e => e.2.process.isSome) = true) :
    (forward env req reg).registry.all (fun e => e.2.process.isSome) = true := by
  unfold forward
  split
  · exact hinv
  · split
    · exact hinv
    · split
      · exact hinv
      · unfold regInsert regRemove
        simp only [List.all_append, Bool.and_eq_true]
        constructor
        · rw [List.all_eq_true] at hinv ⊢
          intro e he
          exact hinv e (List.mem_of_mem_filter he)
        · simp

/-- C9 witness: starting from the empty registry, the registry after a
successful start contains only records with a process handle. -/
theorem forward_registry_process_handles_present_witness :
    (forward ⟨"sid-f", 3, ⟨5, true, ""⟩, 0⟩
      ⟨some "demo", some "web-0", none⟩ []).registry.all
      (fun e => e.2.process.isSome) = true :=
  forward_registry_process_handles_present
    ⟨"sid-f", 3, ⟨5, true, ""⟩, 0⟩ ⟨some "demo", some "web-0", none⟩ []
    (by decide)

/-- C10 counterexample: a request missing the namespace whose `port`
parameter is the unparsable string "x" is answered with HTTP 500 (the
`int()` call raises before the namespace/pod validation runs), not 400 —
though still no process is launched and the registry is untouched. -/
theorem forward_missing_namespace_bad_port_returns_500 :
    (forward ⟨"sid-g", 0, ⟨6, true, ""⟩, 0⟩
      ⟨none, some "web-0", some "x"⟩ []).resp.statusCode = 500 ∧
    ¬ ((forward ⟨"sid-g", 0, ⟨6, true, ""⟩, 0⟩
      ⟨none, some "web-0", some "x"⟩ []).resp.statusCode = 400) ∧
    (forward ⟨"sid-g", 0, ⟨6, true, ""⟩, 0⟩
      ⟨none, some "web-0", some "x"⟩ []).launched = false ∧
    (forward ⟨"sid-g", 0, ⟨6, true, ""⟩, 0⟩
      ⟨none, some "web-0", some "x"⟩ []).registry = [] := by
  refine ⟨by decide, by decide, by decide, by decide⟩

/-- C10 amended: for every request missing (or empty in) the namespace
or pod parameter whose `port` parameter parses as an integer, `forward`
answers HTTP 400, launches no process and leaves the registry
unchanged. -/
theorem forward_missing_params_bad_request (env : ForwardEnv)
    (req : Request) (reg : Registry) (port : Int)
    (hport : pyInt? (req.port?.getD "8080") = some port)
    (hmiss : pyFalsy req.namespace? = true ∨ pyFalsy req.pod? = true) :
    (forward env req reg).resp.statusCode = 400 ∧
    (forward env req reg).launched = false ∧
    (forward env req reg).registry = reg := by
  unfold forward
  rw [hport]
  rcases hmiss with h | h <;> simp [h, ForwardResp.statusCode]

/-- C10 amended witness: a request with no namespace and default port is
answered 400 with nothing launched and registry untouched. -/
theorem forward_missing_params_bad_request_witness :
    (forward ⟨"sid-h", 0, ⟨7, true, ""⟩, 0⟩
      ⟨none, some "web-0", none⟩ []).resp.statusCode = 400 ∧
    (forward ⟨"sid-h", 0, ⟨7, true, ""⟩, 0⟩
      ⟨none, some "web-0", none⟩ []).launched = false ∧
    (forward ⟨"sid-h", 0, ⟨7, true, ""⟩, 0⟩
      ⟨none, some "web-0", none⟩ []).registry = [] :=
  forward_missing_params_bad_request ⟨"sid-h", 0, ⟨7, true, ""⟩, 0⟩
    ⟨none, some "web-0", none⟩ [] 8080 (by decide) (Or.inl rfl)

/-- C4 counterexample: stopping an unknown session id is answered with
the same success response as a real stop — `{"status": "stopped"}` with
HTTP 200 — not with a not-found indication. -/
theorem stop_forward_unknown_counterexample :
    (stop_forward "ghost" [] osAllDown).1 = ⟨200, "stopped"⟩ ∧
    (stop_forward "ghost" [] osAllDown).2.1 = [] :=
  ⟨rfl, rfl⟩

/-- C4 amended: stop on a session id absent from the registry is a
benign no-op: it terminates nothing, changes nothing, and returns the
generic success response (HTTP 200, "stopped") — indistinguishable from
a real stop, with no not-found report and no error. -/
theorem stop_forward_unknown_noop (sid : String) (reg : Registry)
    (os : OS) (h : regLookup sid reg = none) :
    stop_forward sid reg os = (⟨200, "stopped"⟩, reg, os) := by
  unfold stop_forward
  rw [stop_port_forward_not_found sid reg os h]

/-- C4 amended witness: stopping a ghost id against a one-session
registry returns 200/"stopped" and leaves everything unchanged. -/
theorem stop_forward_unknown_noop_witness :
    stop_forward "ghost2" reg1 osAllUp = (⟨200, "stopped"⟩, reg1, osAllUp) :=
  stop_forward_unknown_noop "ghost2" reg1 osAllUp (by decide)

/-- C5: stop is idempotent.  For a registered session, the first
`stop_port_forward` removes it from the registry; a second call in a row
is a no-op (finds nothing, terminates nothing); the first call issues
exactly one terminate sequence when the process is still running, and
issues none — a no-op success, never an error — when the process has
already exited (it is still removed). -/
theorem stop_port_forward_idempotent (reg : Registry) (os : OS)
    (sid : String) (info : SessionInfo) (p : ProcessHandle)
    (hmem : regLookup sid reg = some info) (hp : info.process = some p) :
    regLookup sid (stop_port_forward sid reg os).registry = none ∧
    stop_port_forward sid (stop_port_forward sid reg os).registry
        (stop_port_forward sid reg os).os
      = { registry := (stop_port_forward sid reg os).registry
          os := (stop_port_forward sid reg os).os
          terminations := 0 } ∧
    (os.running p.pid = true →
      (stop_port_forward sid reg os).terminations = 1 ∧
      (stop_port_forward sid reg os).os.running p.pid = false) ∧
    (os.running p.pid = false →
      (stop_port_forward sid reg os).terminations = 0) := by
  have hreg : (stop_port_forward sid reg os).registry = regRemove sid reg := by
    unfold stop_port_forward
    simp only [hmem, hp]
    split <;> rfl
  have hlookup : regLookup sid (stop_port_forward sid reg os).registry = none := by
    rw [hreg]
    exact regLookup_regRemove sid reg
  refine ⟨hlookup, ?_, ?_, ?_⟩
  · exact stop_port_forward_not_found sid _ _ hlookup
  · intro halive
    have heq : stop_port_forward sid reg os
        = ⟨regRemove sid reg,
           ⟨fun q => if q = p.pid then false else os.running q⟩, 1⟩ := by
      unfold stop_port_forward
      simp [hmem, hp, halive]
    rw [heq]
    exact ⟨rfl, by simp⟩
  · intro hdead
    have heq : stop_port_forward sid reg os = ⟨regRemove sid reg, os, 0⟩ := by
      unfold stop_port_forward
      simp [hmem, hp, hdead]
    rw [heq]

/-- C5 witness: stopping the sample session twice — one termination,
one removal, the process ends up not running, and the second call is a
no-op. -/
theorem stop_port_forward_idempotent_witness :
    regLookup "s1" (stop_port_forward "s1" reg1 osAllUp).registry = none ∧
    stop_port_forward "s1" (stop_port_forward "s1" reg1 osAllUp).registry
        (stop_port_forward "s1" reg1 osAllUp).os
      = { registry := (stop_port_forward "s1" reg1 osAllUp).registry
          os := (stop_port_forward "s1" reg1 osAllUp).os
          terminations := 0 } ∧
    (stop_port_forward "s1" reg1 osAllUp).terminations = 1 ∧
    (stop_port_forward "s1" reg1 osAllUp).os.running 7 = false := by
  obtain ⟨h1, h2, h3, -⟩ :=
    stop_port_forward_idempotent reg1 osAllUp "s1" info1 ⟨7⟩ (by decide) rfl
  exact ⟨h1, h2, (h3 rfl).1, (h3 rfl).2⟩

/-- C6: the `status` endpoint reports a session's `active` flag from a
fresh poll of the OS at call time (the dictionary stores no cached
flag): the reported flag equals the current liveness of the backing
process, hence a session whose process died out-of-band is reported
inactive, never active, and its entry appears in the listing. -/
theorem statusList_dead_process_reported_inactive (reg : Registry)
    (os : OS) (sid : String) (info : SessionInfo) (p : ProcessHandle)
    (hmem : (sid, info) ∈ reg) (hp : info.process = some p) :
    (statusEntryOf os (sid, info)).active = os.running p.pid ∧
    (os.running p.pid = false →
      (statusEntryOf os (sid, info)).active = false) ∧
    statusEntryOf os (sid, info) ∈ statusList reg os := by
  refine ⟨?_, ?_, ?_⟩
  · simp [statusEntryOf, hp]
  · intro hdead
    simp [statusEntryOf, hp, hdead]
  · exact List.mem_map_of_mem _ hmem

/-- C6 witness: with every process dead, the sample session is listed
with `active = false`. -/
theorem statusList_dead_process_reported_inactive_witness :
    (statusEntryOf osAllDown ("s1", info1)).active = osAllDown.running 7 ∧
    (statusEntryOf osAllDown ("s1", info1)).active = false ∧
    statusEntryOf osAllDown ("s1", info1) ∈ statusList reg1 osAllDown := by
  obtain ⟨h1, h2, h3⟩ :=
    statusList_dead_process_reported_inactive reg1 osAllDown "s1" info1 ⟨7⟩
      (by simp [reg1]) rfl
  exact ⟨h1, h2 rfl, h3⟩

/-- C7: when a session's lifetime timer fires (the daemon thread wakes
after `FORWARD_TIMEOUT` and runs `stop_port_forward` once), the session
is removed from the registry, a subsequent `status` listing no longer
contains its session id, its still-running process is terminated with
exactly one terminate sequence, and a second firing would be a no-op —
the expiry takes effect exactly once. -/
theorem timer_expiry_removes_session (reg : Registry) (os : OS)
    (sid : String) (info : SessionInfo) (p : ProcessHandle)
    (hmem : regLookup sid reg = some info) (hp : info.process = some p)
    (halive : os.running p.pid = true) :
    regLookup sid (timeout_handler sid reg os).registry = none ∧
    (statusList (timeout_handler sid reg os).registry
        (timeout_handler sid reg os).os).all
      (fun st => st.session_id != sid) = true ∧
    (timeout_handler sid reg os).os.running p.pid = false ∧
    (timeout_handler sid reg os).terminations = 1 ∧
    timeout_handler sid (timeout_handler sid reg os).registry
        (timeout_handler sid reg os).os
      = { registry := (timeout_handler sid reg os).registry
          os := (timeout_handler sid reg os).os
          terminations := 0 } := by
  have heq : timeout_handler sid reg os
      = ⟨regRemove sid reg,
         ⟨fun q => if q = p.pid then false else os.running q⟩, 1⟩ := by
    unfold timeout_handler stop_port_forward
    simp [hmem, hp, halive]
  have h1 : regLookup sid (timeout_handler sid reg os).registry = none := by
    rw [heq]
    exact regLookup_regRemove sid reg
  refine ⟨h1, ?_, ?_, ?_, ?_⟩
  · rw [heq]
    rw [List.all_eq_true]
    intro st hst
    obtain ⟨e, he, rfl⟩ := List.mem_map.mp hst
    have hne := regRemove_key_ne sid reg e he
    simpa [statusEntryOf] using hne
  · rw [heq]
    simp
  · rw [heq]
  · exact stop_port_forward_not_found sid _ _ h1

/-- C7 witness: firing the timer of the sample session removes it from
the listing, kills its process exactly once, and a repeat fire is a
no-op. -/
theorem timer_expiry_removes_session_witness :
    regLookup "s1" (timeout_handler "s1" reg1 osAllUp).registry = none ∧
    (statusList (timeout_handler "s1" reg1 osAllUp).registry
        (timeout_handler "s1" reg1 osAllUp).os).all
      (fun st => st.session_id != "s1") = true ∧
    (timeout_handler "s1" reg1 osAllUp).os.running 7 = false ∧
    (timeout_handler "s1" reg1 osAllUp).terminations = 1 ∧
    timeout_handler "s1" (timeout_handler "s1" reg1 osAllUp).registry
        (timeout_handler "s1" reg1 osAllUp).os
      = { registry := (timeout_handler "s1" reg1 osAllUp).registry
          os := (timeout_handler "s1" reg1 osAllUp).os
          terminations := 0 } :=
  timer_expiry_removes_session reg1 osAllUp "s1" info1 ⟨7⟩ (by decide) rfl rfl
